import Mathlib

/-!
Shallow embedding of the frame-lifecycle core of the Vulkan-Project renderer
(`src/vk_engine.h`, `src/vk_engine.cpp`, with the interfaces of
`src/vk_images.h`).  The external Vulkan/SDL calls are modelled as events in a
trace: each engine operation is embedded as a pure function from an explicit
engine state to the list of API events it issues, in program order, together
with the updated state.  Deferred-destruction closures (`std::function<void()>`)
are abstracted to identifiers, since the only behaviour the engine observes is
the order in which they are invoked.
-/

namespace VulkanProject

/-- A deferred cleanup action stored in a `DeletionQueue`.  The C++ stores
`std::function<void()>` closures; their only observable behaviour at this layer
is the order of invocation, so they are abstracted to identifiers. -/
abbrev Deletor := Nat

/-- Embedding of `struct DeletionQueue` (vk_engine.h:18-39): a deque of
deletors, front at the head of the list, `push_back` appending at the end. -/
structure DeletionQueue where
  deletors : List Deletor
  deriving DecidableEq, Repr

/-- Embedding of `DeletionQueue::push_function` (vk_engine.h:24-27):
`deletors.push_back(function)`. -/
def DeletionQueue.push_function (q : DeletionQueue) (f : Deletor) : DeletionQueue :=
  { q with deletors := q.deletors ++ [f] }

/-- Embedding of `DeletionQueue::flush` (vk_engine.h:29-38): iterate the deque
from `rbegin` to `rend` calling each stored functor, then `clear()`.  The first
component is the sequence of invocations in execution order; the second is the
queue left behind. -/
def DeletionQueue.flush (q : DeletionQueue) : List Deletor × DeletionQueue :=
  (q.deletors.reverse, { deletors := [] })

/-- The two per-frame semaphores of `FrameData` (vk_engine.h:56):
`_swapchainSemaphore` (image acquired) and `_renderSemaphore` (render
complete), one pair per frame slot. -/
inductive SemId where
  | swapchainSemaphore (slot : Nat)
  | renderSemaphore (slot : Nat)
  deriving DecidableEq, Repr

/-- The images the render loop touches: the engine-owned `_drawImage` and the
chain-owned `_swapchainImages[idx]`. -/
inductive ImgId where
  | drawImage
  | swapchainImage (idx : Nat)
  deriving DecidableEq, Repr

/-- The `VkImageLayout` values used by `VulkanEngine::draw`. -/
inductive VkImageLayout where
  | undefined
  | general
  | transferSrcOptimal
  | transferDstOptimal
  | presentSrcKHR
  deriving DecidableEq, Repr

/-- The `VK_PIPELINE_STAGE_2` values used by `VulkanEngine::draw`
(vk_engine.cpp:445-446). -/
inductive PipelineStage where
  | colorAttachmentOutput
  | allCommands
  deriving DecidableEq, Repr

/-- The `VkResult` values relevant to the embedded operations. -/
inductive VkResult where
  | success
  | timeout
  | suboptimalKHR
  | errorOutOfDateKHR
  deriving DecidableEq, Repr

/-- One Vulkan/SDL API call issued by the engine, recorded in program order.
Each constructor mirrors one call site in `vk_engine.cpp`; the flush events
carry the sequence of deletors the flush executes. -/
inductive Ev where
  | waitForFences (slot : Nat) (timeoutNs : Nat)
  | frameDQFlush (slot : Nat) (executed : List Deletor)
  | resetFences (slot : Nat)
  | acquireNextImageKHR (timeoutNs : Nat) (signal : SemId)
  | resetCommandBuffer (slot : Nat)
  | beginCommandBuffer (slot : Nat) (oneTimeSubmit : Bool)
  | transitionImage (img : ImgId) (currentLayout newLayout : VkImageLayout)
  | clearColorImage (img : ImgId)
  | copyImageToImage (src dst : ImgId)
  | endCommandBuffer (slot : Nat)
  | queueSubmit2 (waitSem : SemId) (waitStage : PipelineStage)
      (signalSem : SemId) (signalStage : PipelineStage) (fenceSlot : Nat)
  | queuePresentKHR (waitSemaphores : List SemId)
  | abortProcess
  | deviceWaitIdle
  | destroySwapchainKHR
  | destroyImageView (idx : Nat)
  | destroyVkImage (img : ImgId)
  | createSwapchain
  | destroyCommandPool (slot : Nat)
  | destroyFence (slot : Nat)
  | destroySemaphore (sem : SemId)
  | mainDQFlush (executed : List Deletor)
  | destroySurface
  | destroyDevice
  | destroyDebugMessenger
  | destroyInstance
  | destroyWindow
  | sleepMilliseconds (ms : Nat)
  deriving DecidableEq, Repr

/-- Predicate picking out swapchain-acquisition events. -/
def Ev.isAcquire : Ev → Bool
  | .acquireNextImageKHR _ _ => true
  | _ => false

/-- Predicate picking out the device-idle wait event. -/
def Ev.isIdle : Ev → Bool
  | .deviceWaitIdle => true
  | _ => false

/-- Predicate picking out a flush of the given frame slot's deletion queue. -/
def Ev.isFrameFlush (slot : Nat) : Ev → Bool
  | .frameDQFlush s _ => s == slot
  | _ => false

/-- Predicate picking out a flush of the global deletion queue. -/
def Ev.isMainFlush : Ev → Bool
  | .mainDQFlush _ => true
  | _ => false

/-- Embedding of `struct FrameData` (vk_engine.h:42-63) restricted to the
state the claims observe: whether `_renderFence` is signalled, and the slot's
`_deletionQueue`.  The command pool/buffer and semaphore handles are opaque
and appear only through the events that touch them. -/
structure FrameData where
  renderFenceSignaled : Bool
  deletionQueue : DeletionQueue
  deriving DecidableEq, Repr

/-- `constexpr unsigned int FRAME_OVERLAP{ 2 }` (vk_engine.h:66). -/
def FRAME_OVERLAP : Nat := 2

/-- Embedding of the `VulkanEngine` members the claims observe
(vk_engine.h:69-137) plus the file-scope global `loadedEngine`
(vk_engine.cpp:24). -/
structure EngineState where
  frameNumber : Nat
  frames : List FrameData
  mainDeletionQueue : DeletionQueue
  swapchainImageViewCount : Nat
  isInitialized : Bool
  loadedEngine : Bool
  stopRendering : Bool
  deriving DecidableEq, Repr

/-- Embedding of `VulkanEngine::get_current_frame` (vk_engine.h:98):
`_frames[_frameNumber % FRAME_OVERLAP]`. -/
def get_current_frame (st : EngineState) : FrameData :=
  st.frames.getD (st.frameNumber % FRAME_OVERLAP) ⟨false, ⟨[]⟩⟩

/-- Vulkan semantics of `vkWaitForFences` on one fence: a wait on an
already-signalled fence returns success immediately; otherwise the result
depends on whether the GPU signals the fence within the timeout. -/
def vkWaitForFences (fenceSignaled gpuSignalsWithinTimeout : Bool) : VkResult :=
  if fenceSignaled then .success
  else if gpuSignalsWithinTimeout then .success
  else .timeout

/-- Modelled from the spec: the `VK_CHECK` macro is defined in `vk_types.h`,
which is not among the provided sources.  Per the spec's error-handling design
(sections 6 and 7), any non-success result from a checked call is fatal and
terminates the process with a diagnostic, so `VK_CHECK` lets a success result
pass and aborts on anything else. -/
def vkCheckOk (r : VkResult) : Bool := r = .success

/-- Result of one `VulkanEngine::draw` call: the events issued in program
order, the engine state afterwards, and whether `VK_CHECK` aborted the
process. -/
structure DrawResult where
  trace : List Ev
  state : EngineState
  aborted : Bool
  deriving DecidableEq, Repr

/-- Embedding of `VulkanEngine::draw` (vk_engine.cpp:353-480).  The inputs
beyond the engine state are the environment's responses: whether the GPU
signals the slot's fence within the 1-second wait, the `VkResult` of
`vkAcquireNextImageKHR`, and the image index it returns.  The call sequence
is, as in the source: wait on the slot's `_renderFence` (timeout 1e9 ns),
flush the slot's deletion queue, reset the fence, acquire a swapchain image
signalling the slot's `_swapchainSemaphore`, reset the slot's command buffer,
begin it with the one-time-submit flag, transition `_drawImage` from undefined
to general, record `draw_background` (a clear of `_drawImage`), transition
`_drawImage` to transfer-src and the acquired swapchain image from undefined
to transfer-dst, copy `_drawImage` into the swapchain image, transition the
swapchain image to present-src, end the buffer, submit waiting on the
swapchain semaphore at color-attachment-output and signalling the render
semaphore at all-commands with the slot's fence, present waiting on the
render semaphore, and finally increment `_frameNumber`. -/
def draw (st : EngineState) (gpuSignalsWithinTimeout : Bool)
    (acquireResult : VkResult) (swapchainImageIndex : Nat) : DrawResult :=
  let slot := st.frameNumber % FRAME_OVERLAP
  let frame := get_current_frame st
  let waitResult := vkWaitForFences frame.renderFenceSignaled gpuSignalsWithinTimeout
  if !(vkCheckOk waitResult) then
    { trace := [.waitForFences slot 1000000000, .abortProcess]
      state := st
      aborted := true }
  else
    let executed := frame.deletionQueue.flush.1
    let frame1 : FrameData := ⟨false, frame.deletionQueue.flush.2⟩
    let st1 : EngineState := { st with frames := st.frames.set slot frame1 }
    let pre : List Ev :=
      [.waitForFences slot 1000000000,
       .frameDQFlush slot executed,
       .resetFences slot,
       .acquireNextImageKHR 1000000000 (.swapchainSemaphore slot)]
    if !(vkCheckOk acquireResult) then
      { trace := pre ++ [.abortProcess]
        state := st1
        aborted := true }
    else
      { trace := pre ++
          [.resetCommandBuffer slot,
           .beginCommandBuffer slot true,
           .transitionImage .drawImage .undefined .general,
           .clearColorImage .drawImage,
           .transitionImage .drawImage .general .transferSrcOptimal,
           .transitionImage (.swapchainImage swapchainImageIndex) .undefined .transferDstOptimal,
           .copyImageToImage .drawImage (.swapchainImage swapchainImageIndex),
           .transitionImage (.swapchainImage swapchainImageIndex) .transferDstOptimal .presentSrcKHR,
           .endCommandBuffer slot,
           .queueSubmit2 (.swapchainSemaphore slot) .colorAttachmentOutput
             (.renderSemaphore slot) .allCommands slot,
           .queuePresentKHR [.renderSemaphore slot]]
        state := { st1 with frameNumber := st.frameNumber + 1 }
        aborted := false }

/-- Embedding of `VulkanEngine::destroy_swapchain` (vk_engine.cpp:183-192):
first `vkDestroySwapchainKHR`, then a loop destroying every entry of
`_swapchainImageViews` in index order.  The input is the length of
`_swapchainImageViews`. -/
def destroy_swapchain (viewCount : Nat) : List Ev :=
  Ev.destroySwapchainKHR :: (List.range viewCount).map Ev.destroyImageView

/-- Events of one iteration of the per-frame loop in `VulkanEngine::cleanup`
(vk_engine.cpp:301-312): destroy the slot's command pool, fence, render
semaphore and swapchain semaphore, then flush the slot's deletion queue. -/
def cleanupFrameEvents (slot : Nat) (frame : FrameData) : List Ev :=
  [.destroyCommandPool slot,
   .destroyFence slot,
   .destroySemaphore (.renderSemaphore slot),
   .destroySemaphore (.swapchainSemaphore slot),
   .frameDQFlush slot frame.deletionQueue.flush.1]

/-- Embedding of `VulkanEngine::cleanup` (vk_engine.cpp:293-330).  If
`_isInitialized`: `vkDeviceWaitIdle`, then the per-frame loop over both slots,
then `_mainDeletionQueue.flush()`, then `destroy_swapchain()`, then surface,
device, debug messenger, instance and window destruction.  In all cases the
global `loadedEngine` pointer is cleared at the end; note that the source
never resets `_isInitialized`. -/
def cleanup (st : EngineState) : List Ev × EngineState :=
  if st.isInitialized then
    let frame0 := st.frames.getD 0 ⟨false, ⟨[]⟩⟩
    let frame1 := st.frames.getD 1 ⟨false, ⟨[]⟩⟩
    (Ev.deviceWaitIdle ::
       (cleanupFrameEvents 0 frame0 ++ cleanupFrameEvents 1 frame1 ++
        [Ev.mainDQFlush st.mainDeletionQueue.flush.1] ++
        destroy_swapchain st.swapchainImageViewCount ++
        [Ev.destroySurface, Ev.destroyDevice, Ev.destroyDebugMessenger,
         Ev.destroyInstance, Ev.destroyWindow]),
     { st with
        frames := [⟨frame0.renderFenceSignaled, frame0.deletionQueue.flush.2⟩,
                   ⟨frame1.renderFenceSignaled, frame1.deletionQueue.flush.2⟩],
        mainDeletionQueue := st.mainDeletionQueue.flush.2,
        loadedEngine := false })
  else ([], { st with loadedEngine := false })

/-- Embedding of `VulkanEngine::init_sync_structures` (vk_engine.cpp:272-291):
for each of the `FRAME_OVERLAP` frames, create `_renderFence` from a
`fence_create_info(VK_FENCE_CREATE_SIGNALED_BIT)` — so the fence starts in the
signalled state — together with the two semaphores; each frame's deletion
queue starts empty. -/
def init_sync_structures : List FrameData :=
  (List.range FRAME_OVERLAP).map fun _ => ⟨true, ⟨[]⟩⟩

/-- Engine state right after `VulkanEngine::init` (vk_engine.cpp:34-63)
succeeds: frame counter zero, frames from `init_sync_structures`, the global
deletion queue holding the two deletors pushed during init — the allocator
deletor from `init_vulkan` (vk_engine.cpp:153, identifier 0) and the
draw-image deletor from `init_swapchain` (vk_engine.cpp:238-242, identifier
1) — a swapchain with `viewCount` image views, `_isInitialized` set, the
`loadedEngine` global set, and rendering not suspended. -/
def initialEngineState (viewCount : Nat) : EngineState :=
  { frameNumber := 0
    frames := init_sync_structures
    mainDeletionQueue := (DeletionQueue.mk []).push_function 0 |>.push_function 1
    swapchainImageViewCount := viewCount
    isInitialized := true
    loadedEngine := true
    stopRendering := false }

/-- Result of `VulkanEngine::init`: either the `assert(loadedEngine ==
nullptr)` at vk_engine.cpp:37 fails, or the engine reaches the initialized
state. -/
structure InitResult where
  assertionFailed : Bool
  state : EngineState
  deriving DecidableEq, Repr

/-- Embedding of `VulkanEngine::init` (vk_engine.cpp:34-63): fatal assertion
if the global `loadedEngine` pointer is already set; otherwise the engine is
initialized (window, Vulkan, swapchain with `viewCount` views, commands, sync
structures) and `_isInitialized` becomes true. -/
def initEngine (st : EngineState) (viewCount : Nat) : InitResult :=
  if st.loadedEngine then
    { assertionFailed := true, state := st }
  else
    { assertionFailed := false, state := initialEngineState viewCount }

/-- The SDL events `VulkanEngine::run` reacts to (vk_engine.cpp:490-519). -/
inductive SDLEvent where
  | quit
  | windowMinimized
  | windowRestored
  | keyEscape
  | keySpace
  | other
  deriving DecidableEq, Repr

/-- State of the `run` loop: the engine plus the local `bQuit` flag
(vk_engine.cpp:485). -/
structure LoopState where
  engine : EngineState
  bQuit : Bool
  deriving DecidableEq, Repr

/-- Embedding of the event-polling body of `VulkanEngine::run`
(vk_engine.cpp:490-519): `SDL_QUIT` and the escape key set `bQuit`;
`SDL_WINDOWEVENT_MINIMIZED` sets `stop_rendering`;
`SDL_WINDOWEVENT_RESTORED` clears it; other events only log. -/
def handleEvent (st : LoopState) (e : SDLEvent) : LoopState :=
  match e with
  | .quit => { st with bQuit := true }
  | .windowMinimized => { st with engine := { st.engine with stopRendering := true } }
  | .windowRestored => { st with engine := { st.engine with stopRendering := false } }
  | .keyEscape => { st with bQuit := true }
  | .keySpace => st
  | .other => st

/-- Embedding of one iteration of the `while (!bQuit)` loop in
`VulkanEngine::run` (vk_engine.cpp:488-530): drain the pending SDL events,
then — if `stop_rendering` — sleep 100 ms and continue, otherwise call
`draw()`.  The environment inputs are those of `draw`. -/
def runIteration (st : LoopState) (events : List SDLEvent)
    (gpuSignalsWithinTimeout : Bool) (acquireResult : VkResult)
    (swapchainImageIndex : Nat) : List Ev × LoopState :=
  let st1 := events.foldl handleEvent st
  if st1.engine.stopRendering then
    ([.sleepMilliseconds 100], st1)
  else
    let d := draw st1.engine gpuSignalsWithinTimeout acquireResult swapchainImageIndex
    (d.trace, { st1 with engine := d.state })

/-- Helper: folding `push_function` over a list of actions records them in
push order. -/
theorem DeletionQueue.foldl_push (q : DeletionQueue) (fs : List Deletor) :
    (fs.foldl DeletionQueue.push_function q).deletors = q.deletors ++ fs := by
  induction fs generalizing q with
  | nil => simp
  | cons f fs ih => simp [DeletionQueue.push_function, ih]

/-- Helper: when the fence wait fails, `VK_CHECK` aborts right after the wait
and nothing further happens. -/
theorem draw_wait_fail_eq (st : EngineState) (gpu : Bool) (acq : VkResult) (idx : Nat)
    (hw : vkWaitForFences (get_current_frame st).renderFenceSignaled gpu ≠ .success) :
    draw st gpu acq idx =
      { trace := [.waitForFences (st.frameNumber % FRAME_OVERLAP) 1000000000, .abortProcess]
        state := st
        aborted := true } := by
  have h : vkCheckOk (vkWaitForFences (get_current_frame st).renderFenceSignaled gpu) = false := by
    simp [vkCheckOk, hw]
  simp [draw, h]

/-- Helper: when the wait succeeds but acquisition returns a non-success
result, `VK_CHECK` aborts right after the acquire call. -/
theorem draw_acquire_fail_eq (st : EngineState) (gpu : Bool) (acq : VkResult) (idx : Nat)
    (hw : vkWaitForFences (get_current_frame st).renderFenceSignaled gpu = .success)
    (ha : acq ≠ .success) :
    draw st gpu acq idx =
      { trace :=
          [.waitForFences (st.frameNumber % FRAME_OVERLAP) 1000000000,
           .frameDQFlush (st.frameNumber % FRAME_OVERLAP)
             (get_current_frame st).deletionQueue.deletors.reverse,
           .resetFences (st.frameNumber % FRAME_OVERLAP),
           .acquireNextImageKHR 1000000000 (.swapchainSemaphore (st.frameNumber % FRAME_OVERLAP)),
           .abortProcess]
        state := { st with
          frames := st.frames.set (st.frameNumber % FRAME_OVERLAP) ⟨false, ⟨[]⟩⟩ }
        aborted := true } := by
  have h1 : vkCheckOk (vkWaitForFences (get_current_frame st).renderFenceSignaled gpu) = true := by
    simp [vkCheckOk, hw]
  have h2 : vkCheckOk acq = false := by
    simp [vkCheckOk, ha]
  simp [draw, h1, h2, DeletionQueue.flush]

/-- Helper: the complete trace of a fully successful `draw` call. -/
theorem draw_success_eq (st : EngineState) (gpu : Bool) (idx : Nat)
    (hw : vkWaitForFences (get_current_frame st).renderFenceSignaled gpu = .success) :
    draw st gpu .success idx =
      { trace :=
          [.waitForFences (st.frameNumber % FRAME_OVERLAP) 1000000000,
           .frameDQFlush (st.frameNumber % FRAME_OVERLAP)
             (get_current_frame st).deletionQueue.deletors.reverse,
           .resetFences (st.frameNumber % FRAME_OVERLAP),
           .acquireNextImageKHR 1000000000 (.swapchainSemaphore (st.frameNumber % FRAME_OVERLAP)),
           .resetCommandBuffer (st.frameNumber % FRAME_OVERLAP),
           .beginCommandBuffer (st.frameNumber % FRAME_OVERLAP) true,
           .transitionImage .drawImage .undefined .general,
           .clearColorImage .drawImage,
           .transitionImage .drawImage .general .transferSrcOptimal,
           .transitionImage (.swapchainImage idx) .undefined .transferDstOptimal,
           .copyImageToImage .drawImage (.swapchainImage idx),
           .transitionImage (.swapchainImage idx) .transferDstOptimal .presentSrcKHR,
           .endCommandBuffer (st.frameNumber % FRAME_OVERLAP),
           .queueSubmit2 (.swapchainSemaphore (st.frameNumber % FRAME_OVERLAP))
             .colorAttachmentOutput
             (.renderSemaphore (st.frameNumber % FRAME_OVERLAP)) .allCommands
             (st.frameNumber % FRAME_OVERLAP),
           .queuePresentKHR [.renderSemaphore (st.frameNumber % FRAME_OVERLAP)]]
        state := { st with
          frames := st.frames.set (st.frameNumber % FRAME_OVERLAP) ⟨false, ⟨[]⟩⟩,
          frameNumber := st.frameNumber + 1 }
        aborted := false } := by
  have h1 : vkCheckOk (vkWaitForFences (get_current_frame st).renderFenceSignaled gpu) = true := by
    simp [vkCheckOk, hw]
  simp [draw, h1, vkCheckOk, DeletionQueue.flush, hw]

/-- Claim C2: for every sequence of `push_function` calls followed by one
`flush`, the pushed actions are executed exactly once each (multiplicity
preserved), in exactly reverse-of-push order; after the flush the queue is
empty, a subsequent flush executes nothing, and a flush of a never-pushed
queue executes nothing. -/
theorem deletionQueue_flush_reverse_once (fs : List Deletor) :
    ((fs.foldl DeletionQueue.push_function ⟨[]⟩).flush.1 = fs.reverse)
    ∧ (∀ f : Deletor,
        ((fs.foldl DeletionQueue.push_function ⟨[]⟩).flush.1).count f = fs.count f)
    ∧ ((fs.foldl DeletionQueue.push_function ⟨[]⟩).flush.2 = ⟨[]⟩)
    ∧ ((fs.foldl DeletionQueue.push_function ⟨[]⟩).flush.2.flush.1 = [])
    ∧ ((DeletionQueue.mk []).flush.1 = []) := by
  refine ⟨?_, ?_, ?_, ?_, ?_⟩ <;>
    simp [DeletionQueue.flush, DeletionQueue.foldl_push, List.count_reverse]

/-- Claim C1, counterexample: at a concrete post-init state, when acquisition
returns the out-of-date status, `draw` aborts: it performs no device-idle
wait, no swapchain destruction, no swapchain recreation, and does not retry
acquisition (exactly one acquire event occurs), contradicting the claimed
idle-wait/teardown/rebuild/retry behaviour. -/
theorem draw_outOfDate_counterexample :
    ((draw (initialEngineState 2) true .errorOutOfDateKHR 0).aborted = true)
    ∧ (Ev.deviceWaitIdle ∉ (draw (initialEngineState 2) true .errorOutOfDateKHR 0).trace)
    ∧ (Ev.destroySwapchainKHR ∉ (draw (initialEngineState 2) true .errorOutOfDateKHR 0).trace)
    ∧ (Ev.createSwapchain ∉ (draw (initialEngineState 2) true .errorOutOfDateKHR 0).trace)
    ∧ ((draw (initialEngineState 2) true .errorOutOfDateKHR 0).trace.countP Ev.isAcquire = 1) := by
  decide

/-- Claim C1, amended: if swapchain image acquisition returns an out-of-date
status, `VK_CHECK` treats it as fatal and the process aborts immediately
after the acquire call; no device-idle wait, swapchain teardown, rebuild, or
acquisition retry occurs, and the frame counter is not advanced. -/
theorem draw_outOfDate_aborts_without_rebuild (st : EngineState) (gpu : Bool) (idx : Nat)
    (hw : vkWaitForFences (get_current_frame st).renderFenceSignaled gpu = .success) :
    ((draw st gpu .errorOutOfDateKHR idx).aborted = true)
    ∧ ((draw st gpu .errorOutOfDateKHR idx).trace =
        [.waitForFences (st.frameNumber % FRAME_OVERLAP) 1000000000,
         .frameDQFlush (st.frameNumber % FRAME_OVERLAP)
           (get_current_frame st).deletionQueue.deletors.reverse,
         .resetFences (st.frameNumber % FRAME_OVERLAP),
         .acquireNextImageKHR 1000000000 (.swapchainSemaphore (st.frameNumber % FRAME_OVERLAP)),
         .abortProcess])
    ∧ ((draw st gpu .errorOutOfDateKHR idx).state.frameNumber = st.frameNumber) := by
  rw [draw_acquire_fail_eq st gpu VkResult.errorOutOfDateKHR idx hw (by simp)]
  exact ⟨rfl, rfl, rfl⟩

/-- Witness for the amended claim C1 at a concrete post-init state. -/
theorem draw_outOfDate_aborts_without_rebuild_witness :
    ((draw (initialEngineState 3) false .errorOutOfDateKHR 1).aborted = true)
    ∧ ((draw (initialEngineState 3) false .errorOutOfDateKHR 1).state.frameNumber = 0) :=
  ⟨(draw_outOfDate_aborts_without_rebuild (initialEngineState 3) false 1 (by decide)).1,
   (draw_outOfDate_aborts_without_rebuild (initialEngineState 3) false 1 (by decide)).2.2⟩

/-- Claim C3, counterexample: with a concrete two-view chain,
`destroy_swapchain` destroys the swapchain object first — its event strictly
precedes every image-view destruction — contradicting the claimed
views-before-chain order. -/
theorem destroy_swapchain_order_counterexample :
    ((destroy_swapchain 2).head? = some Ev.destroySwapchainKHR)
    ∧ ((destroy_swapchain 2).findIdx (· == Ev.destroySwapchainKHR) <
        (destroy_swapchain 2).findIdx (· == Ev.destroyImageView 0))
    ∧ ((destroy_swapchain 2).findIdx (· == Ev.destroySwapchainKHR) <
        (destroy_swapchain 2).findIdx (· == Ev.destroyImageView 1))
    ∧ (Ev.destroyImageView 0 ∈ destroy_swapchain 2)
    ∧ (Ev.destroyImageView 1 ∈ destroy_swapchain 2) := by
  decide

/-- Claim C3, amended: `destroy_swapchain` destroys the swapchain object
first and only afterwards destroys the application-created image views (each
exactly once, in index order), and it never attempts to destroy the
chain-owned images directly. -/
theorem destroy_swapchain_chain_then_views (viewCount : Nat) :
    ((destroy_swapchain viewCount).head? = some Ev.destroySwapchainKHR)
    ∧ ((destroy_swapchain viewCount).drop 1 =
        (List.range viewCount).map Ev.destroyImageView)
    ∧ (∀ i, i < viewCount →
        (destroy_swapchain viewCount).count (Ev.destroyImageView i) = 1)
    ∧ (∀ e ∈ destroy_swapchain viewCount, ∀ img, e ≠ Ev.destroyVkImage img) := by
  refine ⟨rfl, rfl, ?_, ?_⟩
  · intro i hi
    have hinj : Function.Injective Ev.destroyImageView := by
      intro a b hab
      simpa using hab
    have hcons : (destroy_swapchain viewCount).count (Ev.destroyImageView i) =
        ((List.range viewCount).map Ev.destroyImageView).count (Ev.destroyImageView i) := by
      simp [destroy_swapchain, List.count_cons]
    rw [hcons, List.count_map_of_injective _ _ hinj]
    exact List.count_eq_one_of_mem (List.nodup_range _) (List.mem_range.2 hi)
  · intro e he img
    rcases List.mem_cons.1 he with h | h
    · subst h
      simp
    · obtain ⟨i, _, rfl⟩ := List.mem_map.1 h
      simp

/-- Witness for the amended claim C3 at a concrete three-view chain. -/
theorem destroy_swapchain_chain_then_views_witness :
    ((destroy_swapchain 3).count (Ev.destroyImageView 1) = 1)
    ∧ (Ev.destroySwapchainKHR ≠ Ev.destroyVkImage ImgId.drawImage) :=
  ⟨(destroy_swapchain_chain_then_views 3).2.2.1 1 (by decide),
   (destroy_swapchain_chain_then_views 3).2.2.2 Ev.destroySwapchainKHR (by decide)
     ImgId.drawImage⟩

/-- Claim C4: in every `draw` iteration, the slot's fence wait (1-second
bound) is the very first call; the command buffer is reset or recorded only
if that wait succeeded (the fence signalled); and within the iteration the
order is wait, then the slot's deletion-queue flush, then the fence reset,
then the command-buffer reset. -/
theorem draw_fence_wait_precedes_reuse (st : EngineState) (gpu : Bool) (acq : VkResult)
    (idx : Nat) :
    ((draw st gpu acq idx).trace.head? =
        some (.waitForFences (st.frameNumber % FRAME_OVERLAP) 1000000000))
    ∧ (Ev.resetCommandBuffer (st.frameNumber % FRAME_OVERLAP) ∈ (draw st gpu acq idx).trace →
        vkWaitForFences (get_current_frame st).renderFenceSignaled gpu = .success)
    ∧ (Ev.beginCommandBuffer (st.frameNumber % FRAME_OVERLAP) true ∈ (draw st gpu acq idx).trace →
        vkWaitForFences (get_current_frame st).renderFenceSignaled gpu = .success)
    ∧ (vkWaitForFences (get_current_frame st).renderFenceSignaled gpu = .success →
        (draw st gpu acq idx).trace.take 3 =
          [.waitForFences (st.frameNumber % FRAME_OVERLAP) 1000000000,
           .frameDQFlush (st.frameNumber % FRAME_OVERLAP)
             (get_current_frame st).deletionQueue.deletors.reverse,
           .resetFences (st.frameNumber % FRAME_OVERLAP)])
    ∧ (vkWaitForFences (get_current_frame st).renderFenceSignaled gpu = .success →
        acq = .success →
        (draw st gpu acq idx).trace[4]? =
          some (.resetCommandBuffer (st.frameNumber % FRAME_OVERLAP))) := by
  by_cases hw : vkWaitForFences (get_current_frame st).renderFenceSignaled gpu = .success
  · by_cases ha : acq = .success
    · subst ha
      rw [draw_success_eq st gpu idx hw]
      exact ⟨rfl, fun _ => hw, fun _ => hw, fun _ => rfl, fun _ _ => rfl⟩
    · rw [draw_acquire_fail_eq st gpu acq idx hw ha]
      exact ⟨rfl, fun _ => hw, fun _ => hw, fun _ => rfl, fun _ h => absurd h ha⟩
  · rw [draw_wait_fail_eq st gpu acq idx hw]
    refine ⟨rfl, fun h => ?_, fun h => ?_, fun h => absurd h hw, fun h _ => absurd h hw⟩
    · simp at h
    · simp at h

/-- Witness for claim C4 at a concrete post-init state. -/
theorem draw_fence_wait_precedes_reuse_witness :
    ((draw (initialEngineState 2) true .success 0).trace.take 3 =
      [.waitForFences 0 1000000000, .frameDQFlush 0 [], .resetFences 0])
    ∧ ((draw (initialEngineState 2) true .success 0).trace[4]? =
        some (.resetCommandBuffer 0)) :=
  ⟨(draw_fence_wait_precedes_reuse (initialEngineState 2) true .success 0).2.2.2.1
     (by decide),
   (draw_fence_wait_precedes_reuse (initialEngineState 2) true .success 0).2.2.2.2
     (by decide) rfl⟩

/-- Claim C5: `cleanup` on an initialized engine issues the device-idle wait
as its very first call, and only afterwards flushes the deletion queues: each
frame slot's deletion queue (positions 5 and 10, inside the per-frame loop)
strictly before the global deletion queue (position 11), every flush
executing its deletors in reverse registration order — per-frame resources
are released before the earlier-created global resources. -/
theorem cleanup_idle_then_flushes (st : EngineState) (h : st.isInitialized = true) :
    ((cleanup st).1.findIdx Ev.isIdle = 0)
    ∧ ((cleanup st).1.findIdx (Ev.isFrameFlush 0) = 5)
    ∧ ((cleanup st).1.findIdx (Ev.isFrameFlush 1) = 10)
    ∧ ((cleanup st).1.findIdx Ev.isMainFlush = 11)
    ∧ (Ev.frameDQFlush 0
        (st.frames.getD 0 ⟨false, ⟨[]⟩⟩).deletionQueue.deletors.reverse ∈ (cleanup st).1)
    ∧ (Ev.frameDQFlush 1
        (st.frames.getD 1 ⟨false, ⟨[]⟩⟩).deletionQueue.deletors.reverse ∈ (cleanup st).1)
    ∧ (Ev.mainDQFlush st.mainDeletionQueue.deletors.reverse ∈ (cleanup st).1) := by
  refine ⟨?_, ?_, ?_, ?_, ?_, ?_, ?_⟩ <;>
    simp [cleanup, h, cleanupFrameEvents, DeletionQueue.flush, List.findIdx_cons,
      Ev.isIdle, Ev.isFrameFlush, Ev.isMainFlush]

/-- Witness for claim C5 at a concrete post-init state. -/
theorem cleanup_idle_then_flushes_witness :
    ((cleanup (initialEngineState 2)).1.findIdx Ev.isIdle = 0)
    ∧ ((cleanup (initialEngineState 2)).1.findIdx Ev.isMainFlush = 11) :=
  ⟨(cleanup_idle_then_flushes (initialEngineState 2) rfl).1,
   (cleanup_idle_then_flushes (initialEngineState 2) rfl).2.2.2.1⟩

/-- Claim C6: on a successful iteration the recorded commands are exactly, in
order: begin the command buffer with the one-time-submit hint; transition the
draw image from undefined to general; record the drawing commands (the
background clear) into it; transition the draw image to transfer-source and
the acquired swapchain image from undefined to transfer-destination; copy the
draw image into the swapchain image; transition the swapchain image to the
presentable layout; end recording — with nothing else in the 15-event
trace. -/
theorem draw_record_phase_exact (st : EngineState) (gpu : Bool) (idx : Nat)
    (hw : vkWaitForFences (get_current_frame st).renderFenceSignaled gpu = .success) :
    (((draw st gpu .success idx).trace.drop 5).take 8 =
      [.beginCommandBuffer (st.frameNumber % FRAME_OVERLAP) true,
       .transitionImage .drawImage .undefined .general,
       .clearColorImage .drawImage,
       .transitionImage .drawImage .general .transferSrcOptimal,
       .transitionImage (.swapchainImage idx) .undefined .transferDstOptimal,
       .copyImageToImage .drawImage (.swapchainImage idx),
       .transitionImage (.swapchainImage idx) .transferDstOptimal .presentSrcKHR,
       .endCommandBuffer (st.frameNumber % FRAME_OVERLAP)])
    ∧ ((draw st gpu .success idx).trace.length = 15) := by
  rw [draw_success_eq st gpu idx hw]
  exact ⟨rfl, rfl⟩

/-- Witness for claim C6 at a concrete post-init state. -/
theorem draw_record_phase_exact_witness :
    ((draw (initialEngineState 2) true .success 1).trace.length = 15) :=
  (draw_record_phase_exact (initialEngineState 2) true 1 (by decide)).2

/-- Claim C7: on a successful iteration the submission waits on the slot's
image-acquired (swapchain) semaphore at the color-attachment-output stage,
signals the slot's render-complete semaphore at the all-commands stage, and
fences completion to the slot's fence; the subsequent present request waits
only on the render-complete semaphore; and the frame counter advances by
exactly one, with the present as the last event of the iteration. -/
theorem draw_submit_present_frame_advance (st : EngineState) (gpu : Bool) (idx : Nat)
    (hw : vkWaitForFences (get_current_frame st).renderFenceSignaled gpu = .success) :
    ((draw st gpu .success idx).trace[13]? =
      some (.queueSubmit2 (.swapchainSemaphore (st.frameNumber % FRAME_OVERLAP))
        .colorAttachmentOutput
        (.renderSemaphore (st.frameNumber % FRAME_OVERLAP)) .allCommands
        (st.frameNumber % FRAME_OVERLAP)))
    ∧ ((draw st gpu .success idx).trace[14]? =
        some (.queuePresentKHR [.renderSemaphore (st.frameNumber % FRAME_OVERLAP)]))
    ∧ ((draw st gpu .success idx).trace.length = 15)
    ∧ ((draw st gpu .success idx).state.frameNumber = st.frameNumber + 1) := by
  rw [draw_success_eq st gpu idx hw]
  exact ⟨rfl, rfl, rfl, rfl⟩

/-- Witness for claim C7 at a concrete post-init state. -/
theorem draw_submit_present_frame_advance_witness :
    ((draw (initialEngineState 2) true .success 0).trace[14]? =
      some (.queuePresentKHR [.renderSemaphore 0]))
    ∧ ((draw (initialEngineState 2) true .success 0).state.frameNumber = 1) :=
  ⟨(draw_submit_present_frame_advance (initialEngineState 2) true 0 (by decide)).2.1,
   (draw_submit_present_frame_advance (initialEngineState 2) true 0 (by decide)).2.2.2⟩

/-- Claim C8: if, after draining this iteration's SDL events, rendering is
suspended (`stop_rendering` set), the iteration issues exactly one 100 ms
sleep and none of the Acquire/Record/Submit/Present work; once un-suspended,
the very next iteration runs `draw` itself, and — given a signalled fence and
a successful acquisition — that is a normal full 15-event frame. -/
theorem run_suspended_skips_frame (st : LoopState) (events : List SDLEvent)
    (gpu : Bool) (acq : VkResult) (idx : Nat) :
    ((events.foldl handleEvent st).engine.stopRendering = true →
      runIteration st events gpu acq idx =
        ([.sleepMilliseconds 100], events.foldl handleEvent st))
    ∧ ((events.foldl handleEvent st).engine.stopRendering = false →
        (runIteration st events gpu acq idx).1 =
          (draw (events.foldl handleEvent st).engine gpu acq idx).trace)
    ∧ ((events.foldl handleEvent st).engine.stopRendering = false →
        vkWaitForFences
          (get_current_frame (events.foldl handleEvent st).engine).renderFenceSignaled
          gpu = .success →
        (runIteration st events gpu .success idx).1.length = 15) := by
  refine ⟨fun h => ?_, fun h => ?_, fun h hw => ?_⟩
  · simp [runIteration, h]
  · simp [runIteration, h]
  · have e1 : (runIteration st events gpu .success idx).1 =
        (draw (events.foldl handleEvent st).engine gpu .success idx).trace := by
      simp [runIteration, h]
    rw [e1, draw_success_eq _ gpu idx hw]
    rfl

/-- Witness for claim C8: a suspended iteration only sleeps, and the first
iteration after a restore event runs a full 15-event frame. -/
theorem run_suspended_skips_frame_witness :
    (runIteration ⟨{ initialEngineState 2 with stopRendering := true }, false⟩ []
        true .success 0 =
      ([.sleepMilliseconds 100],
       ⟨{ initialEngineState 2 with stopRendering := true }, false⟩))
    ∧ ((runIteration ⟨{ initialEngineState 2 with stopRendering := true }, false⟩
        [.windowRestored] true .success 0).1.length = 15) :=
  ⟨(run_suspended_skips_frame ⟨{ initialEngineState 2 with stopRendering := true }, false⟩
      [] true .success 0).1 (by decide),
   (run_suspended_skips_frame ⟨{ initialEngineState 2 with stopRendering := true }, false⟩
      [.windowRestored] true .success 0).2.2 (by decide) (by decide)⟩

/-- Claim C9, counterexample: after a completed `cleanup` on a concrete
initialized engine, a repeat `cleanup` does not merely clear the global
engine pointer — because `_isInitialized` is never reset, it re-runs the full
destruction body, starting again with the device-idle wait. -/
theorem cleanup_repeat_counterexample :
    ((cleanup (initialEngineState 2)).2.isInitialized = true)
    ∧ ((cleanup (cleanup (initialEngineState 2)).2).1.head? = some Ev.deviceWaitIdle)
    ∧ ((cleanup (cleanup (initialEngineState 2)).2).1 ≠ []) := by
  decide

/-- Claim C9, amended: calling `init` while the global engine pointer is set
fails the fatal assertion; `cleanup` on a never-initialized engine performs
no destruction and only clears the global engine pointer; but since `cleanup`
never clears `_isInitialized`, a repeat `cleanup` after a completed one
re-runs the full destruction body (beginning with the device-idle wait)
rather than only clearing the pointer. -/
theorem init_cleanup_guards (st : EngineState) (viewCount : Nat) :
    (st.loadedEngine = true → (initEngine st viewCount).assertionFailed = true)
    ∧ (st.isInitialized = false →
        (cleanup st).1 = [] ∧ (cleanup st).2 = { st with loadedEngine := false })
    ∧ (st.isInitialized = true →
        ((cleanup st).2.isInitialized = true
          ∧ (cleanup (cleanup st).2).1.head? = some Ev.deviceWaitIdle)) := by
  refine ⟨fun h => ?_, fun h => ?_, fun h => ?_⟩
  · simp [initEngine, h]
  · simp [cleanup, h]
  · have h2 : (cleanup st).2.isInitialized = true := by
      simp [cleanup, h]
    refine ⟨h2, ?_⟩
    generalize hg : (cleanup st).2 = st2 at h2 ⊢
    simp [cleanup, h2]

/-- Witness for the amended claim C9 at concrete states. -/
theorem init_cleanup_guards_witness :
    ((initEngine (initialEngineState 2) 3).assertionFailed = true)
    ∧ ((cleanup { initialEngineState 2 with isInitialized := false }).1 = [])
    ∧ ((cleanup (cleanup (initialEngineState 2)).2).1.head? = some Ev.deviceWaitIdle) :=
  ⟨(init_cleanup_guards (initialEngineState 2) 3).1 rfl,
   ((init_cleanup_guards { initialEngineState 2 with isInitialized := false } 3).2.1 rfl).1,
   ((init_cleanup_guards (initialEngineState 2) 3).2.2 rfl).2⟩

/-- Claim C10: every per-frame render fence is created signalled
(`VK_FENCE_CREATE_SIGNALED_BIT`), so on the very first frame for each slot —
whatever the frame number, and even if the GPU would never signal within the
1-second bound — the blocking fence wait at the top of `draw` returns success
immediately, and the iteration proceeds past the wait to the slot's
deletion-queue flush instead of aborting on a timeout. -/
theorem initial_fence_signaled_wait_success (viewCount n idx : Nat) (gpu : Bool)
    (acq : VkResult) :
    ((get_current_frame
        { initialEngineState viewCount with frameNumber := n }).renderFenceSignaled = true)
    ∧ (vkWaitForFences
        (get_current_frame
          { initialEngineState viewCount with frameNumber := n }).renderFenceSignaled
        gpu = .success)
    ∧ ((draw { initialEngineState viewCount with frameNumber := n } gpu acq idx).trace[1]? =
        some (.frameDQFlush (n % FRAME_OVERLAP) [])) := by
  have hframes : init_sync_structures =
      [⟨true, ⟨[]⟩⟩, ⟨true, ⟨[]⟩⟩] := rfl
  have hsig : (get_current_frame
      { initialEngineState viewCount with frameNumber := n }).renderFenceSignaled = true := by
    rcases Nat.mod_two_eq_zero_or_one n with h | h <;>
      simp [get_current_frame, initialEngineState, hframes, FRAME_OVERLAP, h]
  have hq : (get_current_frame
      { initialEngineState viewCount with frameNumber := n }).deletionQueue = ⟨[]⟩ := by
    rcases Nat.mod_two_eq_zero_or_one n with h | h <;>
      simp [get_current_frame, initialEngineState, hframes, FRAME_OVERLAP, h]
  have hw : vkWaitForFences
      (get_current_frame
        { initialEngineState viewCount with frameNumber := n }).renderFenceSignaled
      gpu = .success := by
    rw [hsig]
    simp [vkWaitForFences]
  refine ⟨hsig, hw, ?_⟩
  by_cases ha : acq = .success
  · subst ha
    rw [draw_success_eq _ gpu idx hw]
    simp [hq]
  · rw [draw_acquire_fail_eq _ gpu acq idx hw ha]
    simp [hq]

end VulkanProject
